import Mathlib

/-!
Shallow embedding of the cotyledon process supervisor
(`src/cotyledon/__init__.py`) and proofs about the behaviour its
specification claims.

The embedding models the parts of the module the claims are about:
the per-process signal queue of `_SignalManager`, the self-pipe drain,
the worker-side exit-code barrier `_exit_on_exception`, the supervisor
state of `ServiceManager` (service registry, running-worker table,
fork-time ledger) and its operations `_adjust_workers`, `_start_worker`,
`_stop_worker`, `_restart_dead_worker`, `_slowdown_respawn_if_needed`,
`reconfigure`, and the `_systemd_notify_once` readiness notifier.

Python-specific behaviour that the claims hinge on is modelled
explicitly and faithfully:
- `range(a, b)` is empty when `a >= b` (`pyRange`);
- in Python 3 a `bytes` object never compares equal to an `int`
  (`pyBytesEqInt` is constantly false, mirroring
  `os.read(fd, 4096) == 4096`);
- indexing an absent key of a `dict` raises `KeyError`, not
  `IndexError` (`dict_getitem`);
- `if notify_socket:` is a truthiness test, false for both an unset
  variable and the empty string.
-/

namespace Cotyledon

/-! ### Signals and the per-process signal queue (`_SignalManager`) -/

/-- The signals for which `_SignalManager.__init__` installs
`_signal_catcher`: SIGHUP, SIGTERM and SIGALRM. -/
inductive Sig where
  | sighup
  | sigterm
  | sigalrm
  deriving DecidableEq, Repr

/-- Terminate-class signals: SIGTERM and the SIGALRM deadline alarm.
These are the signals `_signal_catcher` prepends. -/
def isTermClass : Sig → Bool
  | .sigalrm => true
  | .sigterm => true
  | .sighup => false

/-- `_SignalManager._signal_catcher`: SIGALRM and SIGTERM are
`appendleft`-ed to the deque of received signals, every other caught
signal (SIGHUP) is appended at the back. The deque front is the list
head. -/
def signal_catcher (q : List Sig) (sig : Sig) : List Sig :=
  if sig = .sigalrm ∨ sig = .sigterm then sig :: q else q ++ [sig]

/-- The queue built by delivering a sequence of signals, in order, to
`_signal_catcher`, starting from the empty deque. -/
def receiveAll (sigs : List Sig) : List Sig :=
  sigs.foldl signal_catcher []

/-- `_SignalManager._run_signal_handlers`: repeatedly `popleft` the
deque and dispatch, until `IndexError`; the result is the dispatch
order. -/
def run_signal_handlers : List Sig → List Sig
  | [] => []
  | s :: q => s :: run_signal_handlers q

/-- A queue in which every terminate-class signal precedes every
non-terminate-class signal. -/
def TermFirst (q : List Sig) : Prop :=
  ∃ ts rs, q = ts ++ rs ∧ (∀ s ∈ ts, isTermClass s = true) ∧
    (∀ s ∈ rs, isTermClass s = false)

/-! ### The self-pipe drain (`_SignalManager._empty_signal_pipe`) -/

/-- One non-blocking `os.read(self.signal_pipe_r, 4096)` on a pipe
holding `pending` unread bytes: on an empty pipe the read raises
(modelled as `none`); otherwise it returns the chunk of
`min 4096 pending` bytes read and the count of bytes left unread. -/
def osReadPipe (pending : Nat) : Option (List Nat × Nat) :=
  if pending = 0 then none
  else some (List.replicate (min 4096 pending) 0, pending - 4096)

/-- The comparison `os.read(...) == 4096` from `_empty_signal_pipe`:
in Python 3 a `bytes` value never equals an `int`, whatever the
values, so this is constantly `false`. -/
def pyBytesEqInt (_chunk : List Nat) (_n : Nat) : Bool :=
  false

/-- The `while os.read(...) == 4096: pass` loop of
`_empty_signal_pipe`, with fuel for the recursion; a read error
(empty non-blocking pipe) is swallowed by the
`except (IOError, OSError): pass` clause. Returns the number of bytes
still unread in the pipe. -/
def empty_signal_pipe_loop : Nat → Nat → Nat
  | 0, pending => pending
  | fuel + 1, pending =>
    match osReadPipe pending with
    | none => pending
    | some (chunk, rest) =>
      if pyBytesEqInt chunk 4096 then empty_signal_pipe_loop fuel rest
      else rest

/-- `_SignalManager._empty_signal_pipe` on a pipe holding `pending`
unread bytes: the number of unread bytes after the drain. -/
def empty_signal_pipe (pending : Nat) : Nat :=
  empty_signal_pipe_loop (pending + 1) pending

/-! ### Worker-side exit codes (`_exit_on_exception`, `Service`,
`_ChildProcess._on_signal_received`) -/

/-- Outcome of running a piece of user code: normal return,
`SystemExit` carrying an exit code (`sys.exit(code)`), or any other
unhandled exception. -/
inductive UserOutcome where
  | normal
  | sysExit (code : Int)
  | raiseOther
  deriving DecidableEq, Repr

/-- The `_exit_on_exception` fault barrier: `SystemExit(code)` becomes
`os._exit(code)`, any other `BaseException` becomes `os._exit(2)`, a
normal return exits nothing (`none`). -/
def exit_on_exception : UserOutcome → Option Int
  | .normal => none
  | .sysExit c => some c
  | .raiseOther => some 2

/-- The body of `Service._terminate` inside the barrier: run the user
`terminate()`; if it returns normally, `sys.exit(0)` is raised. -/
def terminate_body : UserOutcome → UserOutcome
  | .normal => .sysExit 0
  | .sysExit c => .sysExit c
  | .raiseOther => .raiseOther

/-- Process exit status produced by `Service._terminate` (the
background task spawned on SIGTERM), as a function of what the user
`terminate()` does. -/
def service_terminate_exit (o : UserOutcome) : Option Int :=
  exit_on_exception (terminate_body o)

/-- Class attribute `Service.graceful_shutdown_timeout`: the default
graceful shutdown timeout, in seconds, for subclasses that do not
override it. -/
def graceful_shutdown_timeout_default : Nat := 60

/-- Observable effect of `_ChildProcess._on_signal_received` on one
signal: immediate exit status if any, alarm armed if any (seconds),
and which background task is spawned. -/
structure ChildSignalEffect where
  exitStatus : Option Int
  alarmArmed : Option Nat
  spawnTerminate : Bool
  spawnReload : Bool
  deriving DecidableEq, Repr

/-- `_ChildProcess._on_signal_received` for a service whose
`graceful_shutdown_timeout` is `gst`: SIGALRM exits immediately with
status 1; SIGTERM arms `signal.alarm(gst)` when `gst > 0` and spawns
`Service._terminate`; SIGHUP spawns `Service._reload`. -/
def child_on_signal_received (gst : Nat) : Sig → ChildSignalEffect
  | .sigalrm => ⟨some 1, none, false, false⟩
  | .sigterm => ⟨none, if gst > 0 then some gst else none, true, false⟩
  | .sighup => ⟨none, none, false, true⟩

/-! ### Supervisor state (`ServiceManager`) -/

/-- Python exceptions the embedded operations can raise. -/
inductive PyErr where
  | keyError (k : Nat)
  | indexError
  | valueError (k : Nat)
  | runtimeError
  deriving DecidableEq, Repr

/-- Python `range(a, b)`: the integers from `a` (inclusive) to `b`
(exclusive); empty whenever `a >= b`. -/
def pyRange (a b : Nat) : List Nat :=
  (List.range (b - a)).map (a + ·)

/-- The `ServiceManager` state the claims are about. Service ids and
pids are modelled as naturals; `services` is the ordered registry
(`service_id`, desired `workers`); `running_services` is the
`defaultdict` from service id to the dict from child pid to worker id,
as an association list (an absent service id reads as the empty dict,
matching `defaultdict(dict)`); `forktimes` is the fork-time ledger;
`now` is the current `time.time()`; `nextPid` is the pid `os.fork`
will hand out next; `sleeps` counts the `time.sleep(1)` calls the fork
governor has performed. -/
structure SMState where
  services : List (Nat × Nat)
  running_services : List (Nat × List (Nat × Nat))
  forktimes : List Nat
  now : Nat
  nextPid : Nat
  sleeps : Nat
  deriving DecidableEq, Repr

/-- Read a service's dict out of a running-worker table (a
`defaultdict`): the dict of a registered-but-never-started or unknown
service id is empty. -/
def lookupRS (rs : List (Nat × List (Nat × Nat))) (sid : Nat) : List (Nat × Nat) :=
  match rs.find? (fun p => p.1 == sid) with
  | some p => p.2
  | none => []

/-- Read `self._running_services[service_id]`. -/
def lookupRunning (st : SMState) (sid : Nat) : List (Nat × Nat) :=
  lookupRS st.running_services sid

/-- Record `self._running_services[service_id][pid] = worker_id`. -/
def insertRunning (rs : List (Nat × List (Nat × Nat))) (sid pid wid : Nat) :
    List (Nat × List (Nat × Nat)) :=
  match rs with
  | [] => [(sid, [(pid, wid)])]
  | (s, d) :: rest =>
    if s == sid then (s, d ++ [(pid, wid)]) :: rest
    else (s, d) :: insertRunning rest sid pid wid

/-- Execute `del self._running_services[service_id][pid]`. -/
def removeRunning (rs : List (Nat × List (Nat × Nat))) (sid pid : Nat) :
    List (Nat × List (Nat × Nat)) :=
  rs.map (fun p => if p.1 == sid then (p.1, p.2.filter (fun q => !(q.1 == pid))) else p)

/-- `expected_children` in `_slowdown_respawn_if_needed`: the sum of
the desired worker counts of all registered services. -/
def expected_children (st : SMState) : Nat :=
  (st.services.map Prod.snd).sum

/-- `ServiceManager._slowdown_respawn_if_needed`. In the source, the
`pop(0)`/`append(time.time())` pair and the `time.sleep(1)` all sit
inside the `time.time() - self._forktimes[0] < expected_children`
branch, itself inside the `len(self._forktimes) > expected_children`
branch; nothing runs otherwise. -/
def slowdown_respawn_if_needed (st : SMState) : SMState :=
  if st.forktimes.length > expected_children st then
    match st.forktimes with
    | [] => st
    | t0 :: rest =>
      if st.now - t0 < expected_children st then
        { st with now := st.now + 1, sleeps := st.sleeps + 1,
                  forktimes := rest ++ [st.now + 1] }
      else st
  else st

/-- `ServiceManager._start_worker`, parent side: run the fork governor,
`os.fork()`, and record the child pid in the running-worker table.
Nothing here appends to `forktimes`. -/
def start_worker (st : SMState) (sid wid : Nat) : SMState :=
  let st1 := slowdown_respawn_if_needed st
  { st1 with nextPid := st1.nextPid + 1,
             running_services := insertRunning st1.running_services sid st1.nextPid wid }

/-- A sequence of `_start_worker` calls, e.g. a sustained respawn. -/
def start_workers (st : SMState) (jobs : List (Nat × Nat)) : SMState :=
  jobs.foldl (fun s j => start_worker s j.1 j.2) st

/-- `ServiceManager._stop_worker`: iterate the running dict of the
service and `os.kill(pid, SIGTERM)` every pid whose worker id matches.
Returns the (unchanged) state and the list of pids signalled. -/
def stop_worker (st : SMState) (sid wid : Nat) : SMState × List Nat :=
  (st, ((lookupRunning st sid).filter (fun p => p.2 == wid)).map Prod.fst)

/-- One service's slice of `ServiceManager._adjust_workers`: compare
running count with desired count; if fewer, start workers for ids in
`range(running_workers, conf.workers)`; elif more, call `_stop_worker`
for each id in `range(running_workers, conf.workers)` — the very same
range. Returns the new state and the pids sent SIGTERM. -/
def adjust_workers_service (st : SMState) (sid workers : Nat) : SMState × List Nat :=
  if (lookupRunning st sid).length < workers then
    ((pyRange (lookupRunning st sid).length workers).foldl
      (fun s wid => start_worker s sid wid) st, [])
  else if (lookupRunning st sid).length > workers then
    (pyRange (lookupRunning st sid).length workers).foldl
      (fun acc wid =>
        ((stop_worker acc.1 sid wid).1, acc.2 ++ (stop_worker acc.1 sid wid).2)) (st, [])
  else (st, [])

/-- One service's step inside the `_adjust_workers` loop, threading
the state and accumulating the pids sent SIGTERM. -/
def adjust_step (acc : SMState × List Nat) (p : Nat × Nat) : SMState × List Nat :=
  ((adjust_workers_service acc.1 p.1 p.2).1,
   acc.2 ++ (adjust_workers_service acc.1 p.1 p.2).2)

/-- `ServiceManager._adjust_workers`: every registered service in
registration order. Returns the new state and all pids sent SIGTERM
during the tick. -/
def adjust_workers (st : SMState) : SMState × List Nat :=
  st.services.foldl adjust_step (st, [])

/-- The inner search of `ServiceManager._restart_dead_worker`: the
first `(service_id, worker_id)` whose running dict contains the dead
pid, scanning services and their dict items in order. -/
def find_dead : List (Nat × List (Nat × Nat)) → Nat → Option (Nat × Nat)
  | [], _ => none
  | (sid, d) :: rest, dead =>
    match d.find? (fun p => p.1 == dead) with
    | some p => some (sid, p.2)
    | none => find_dead rest dead

/-- `ServiceManager._restart_dead_worker`: after `os.waitpid` returned
`dead`, delete the pid from its service's running dict and start a
replacement worker with the same worker id; if the pid is unknown,
only log. -/
def restart_dead_worker (st : SMState) (dead : Nat) : SMState :=
  match find_dead st.running_services dead with
  | some sw =>
    start_worker { st with running_services := removeRunning st.running_services sw.1 dead }
      sw.1 sw.2
  | none => st

/-- Dict item access `self._services[service_id]`: a Python `dict`
raises `KeyError` on a missing key (never `IndexError`). The registry
maps service id to desired worker count. -/
def dict_getitem (d : List (Nat × Nat)) (k : Nat) : Except PyErr Nat :=
  match d.find? (fun p => p.1 == k) with
  | some p => .ok p.2
  | none => .error (.keyError k)

/-- `sc.workers = workers` on the registry. -/
def setWorkers (d : List (Nat × Nat)) (k w : Nat) : List (Nat × Nat) :=
  d.map (fun p => if p.1 == k then (p.1, w) else p)

/-- `ServiceManager.reconfigure`: look the service up in the registry
dict; the `except IndexError` clause turns an `IndexError` (which the
dict lookup never raises) into the deliberate
`ValueError("%s service id doesn't exists")`; any other exception,
such as the `KeyError` the lookup actually raises, propagates. On
success, update the desired worker count and reset the fork-time
ledger. -/
def reconfigure (st : SMState) (service_id workers : Nat) : Except PyErr SMState :=
  match dict_getitem st.services service_id with
  | .ok _ =>
    .ok { st with services := setWorkers st.services service_id workers, forktimes := [] }
  | .error e =>
    match e with
    | .indexError => .error (.valueError service_id)
    | _ => .error e

/-! ### Process-wide singleton guard (`ServiceManager.__init__`) -/

/-- Process-wide state for the singleton check: the class attribute
`_process_runner_already_created` and, to observe initialization, the
number of fully initialized `ServiceManager` objects in the process. -/
structure ProcState where
  created : Bool
  instances : Nat
  deriving DecidableEq, Repr

/-- `ServiceManager.__init__`: if `_process_runner_already_created` is
already set, raise `RuntimeError` before any initialization; otherwise
set the class attribute and initialize the instance. Returns the
process state afterwards and the raised error, if any. -/
def service_manager_init (st : ProcState) : ProcState × Option PyErr :=
  if st.created then (st, some .runtimeError)
  else ({ created := true, instances := st.instances + 1 }, none)

/-! ### Readiness notifier (`ServiceManager._systemd_notify_once`) -/

/-- Result of the `connect`/`sendall` pair on the notification socket:
success, or an `EnvironmentError` raised by either call. -/
inductive SendResult where
  | success
  | envError
  deriving DecidableEq, Repr

/-- The `notify_socket.startswith('@')` translation: a leading `'@'`
becomes a NUL byte (abstract-namespace socket address). -/
def translate_notify_socket (s : String) : String :=
  if s.startsWith "@" then "\x00" ++ s.drop 1 else s

/-- Observable effect of one `_systemd_notify_once` call: the datagram
sent, if any, as (address connected to, payload), and the value of
`NOTIFY_SOCKET` afterwards. -/
structure NotifyEffect where
  datagram : Option (String × String)
  envAfter : Option String
  deriving DecidableEq, Repr

/-- `ServiceManager._systemd_notify_once` with `NOTIFY_SOCKET` equal
to `env` (`none` when unset): `if notify_socket:` is a truthiness
test, so an unset variable and the empty string both do nothing; for a
non-empty value, connect to the translated address and send the
literal bytes `READY=1`; on success also `del os.environ` the
variable; an `EnvironmentError` is swallowed (logged at debug) and
leaves the variable set. -/
def systemd_notify_once (env : Option String) (res : SendResult) : NotifyEffect :=
  match env with
  | none => ⟨none, none⟩
  | some s =>
    if s = "" then ⟨none, some s⟩
    else
      match res with
      | .success => ⟨some (translate_notify_socket s, "READY=1"), none⟩
      | .envError => ⟨none, some s⟩

/-! ### Concrete states used by witnesses and counterexamples -/

/-- One registered service (id 0, one desired worker) with two running
workers: pid 100 holds worker id 0, pid 101 holds worker id 1 — a
downscale situation (`running_workers = 2 > 1 = conf.workers`). -/
def downscaleState : SMState :=
  ⟨[(0, 1)], [(0, [(100, 0), (101, 1)])], [], 50, 200, 0⟩

/-- A freshly constructed manager with one registered service (id 0,
one desired worker), nothing running, empty fork-time ledger. -/
def freshState : SMState :=
  ⟨[(0, 1)], [], [], 0, 100, 0⟩

/-- A registry with one service (id 1, two desired workers) and a
non-empty fork-time ledger. -/
def reconfState : SMState :=
  ⟨[(1, 2)], [], [7], 0, 100, 0⟩

/-- Two services: service 0 runs pid 100 (worker 0) and pid 101
(worker 1); service 1 runs pid 102 (worker 0). -/
def reapState : SMState :=
  ⟨[(0, 2), (1, 1)], [(0, [(100, 0), (101, 1)]), (1, [(102, 0)])], [], 10, 200, 0⟩

end Cotyledon

namespace Cotyledon

/-! ### Helper lemmas -/

lemma pyRange_eq_nil (a b : Nat) (h : b ≤ a) : pyRange a b = [] := by
  simp [pyRange, Nat.sub_eq_zero_of_le h]

lemma run_signal_handlers_eq (q : List Sig) : run_signal_handlers q = q := by
  induction q with
  | nil => rfl
  | cons s q ih => simp [run_signal_handlers, ih]

lemma isTermClass_of_catchLeft (sig : Sig) (h : sig = .sigalrm ∨ sig = .sigterm) :
    isTermClass sig = true := by
  rcases h with h | h <;> subst h <;> rfl

lemma isTermClass_of_catchRight (sig : Sig) (h : ¬(sig = .sigalrm ∨ sig = .sigterm)) :
    isTermClass sig = false := by
  cases sig <;> simp_all [isTermClass]

lemma signal_catcher_preserves (q : List Sig) (sig : Sig) (h : TermFirst q) :
    TermFirst (signal_catcher q sig) := by
  obtain ⟨ts, rs, rfl, hts, hrs⟩ := h
  by_cases hsig : sig = .sigalrm ∨ sig = .sigterm
  · refine ⟨sig :: ts, rs, ?_, ?_, hrs⟩
    · simp [signal_catcher, hsig]
    · intro s hs
      rcases List.mem_cons.mp hs with hs | hs
      · rw [hs]; exact isTermClass_of_catchLeft sig hsig
      · exact hts s hs
  · refine ⟨ts, rs ++ [sig], ?_, hts, ?_⟩
    · simp [signal_catcher, hsig]
    · intro s hs
      rcases List.mem_append.mp hs with hs | hs
      · exact hrs s hs
      · have heq : s = sig := by simpa using hs
        rw [heq]
        exact isTermClass_of_catchRight sig hsig

lemma foldl_signal_catcher_preserves (sigs : List Sig) :
    ∀ q : List Sig, TermFirst q → TermFirst (sigs.foldl signal_catcher q) := by
  induction sigs with
  | nil => intro q h; exact h
  | cons s sigs ih =>
    intro q h
    exact ih (signal_catcher q s) (signal_catcher_preserves q s h)

lemma adjust_workers_service_noop (st : SMState) (sid w : Nat)
    (h : w ≤ (lookupRunning st sid).length) :
    adjust_workers_service st sid w = (st, []) := by
  unfold adjust_workers_service
  have h1 : ¬ ((lookupRunning st sid).length < w) := by omega
  rw [if_neg h1]
  by_cases h2 : (lookupRunning st sid).length > w
  · rw [if_pos h2, pyRange_eq_nil _ _ (le_of_lt h2)]
    rfl
  · rw [if_neg h2]

lemma foldl_adjust_step_noop (st : SMState) :
    ∀ l : List (Nat × Nat), (∀ p ∈ l, p.2 ≤ (lookupRunning st p.1).length) →
      l.foldl adjust_step (st, []) = (st, []) := by
  intro l
  induction l with
  | nil => intro _; rfl
  | cons p l ih =>
    intro h
    have hp := h p (List.mem_cons_self p l)
    have hstep : adjust_step (st, []) p = (st, []) := by
      simp [adjust_step, adjust_workers_service_noop st p.1 p.2 hp]
    rw [List.foldl_cons, hstep]
    exact ih (fun q hq => h q (List.mem_cons_of_mem p hq))

lemma slowdown_frame (st : SMState) :
    (slowdown_respawn_if_needed st).running_services = st.running_services ∧
    (slowdown_respawn_if_needed st).nextPid = st.nextPid ∧
    (slowdown_respawn_if_needed st).services = st.services := by
  unfold slowdown_respawn_if_needed
  split
  · split
    · exact ⟨rfl, rfl, rfl⟩
    · split
      · exact ⟨rfl, rfl, rfl⟩
      · exact ⟨rfl, rfl, rfl⟩
  · exact ⟨rfl, rfl, rfl⟩

lemma start_worker_empty_forktimes (st : SMState) (sid wid : Nat)
    (h : st.forktimes = []) :
    (start_worker st sid wid).forktimes = [] ∧
    (start_worker st sid wid).now = st.now ∧
    (start_worker st sid wid).sleeps = st.sleeps ∧
    (start_worker st sid wid).nextPid = st.nextPid + 1 := by
  have hslow : slowdown_respawn_if_needed st = st := by
    unfold slowdown_respawn_if_needed
    rw [h]
    simp
  simp [start_worker, hslow, h]

lemma lookupRS_nil (sid : Nat) : lookupRS [] sid = [] := rfl

lemma lookupRS_cons (a : Nat × List (Nat × Nat)) (rest : List (Nat × List (Nat × Nat)))
    (sid : Nat) :
    lookupRS (a :: rest) sid = if a.1 = sid then a.2 else lookupRS rest sid := by
  by_cases hb : a.1 = sid
  · rw [if_pos hb]
    unfold lookupRS
    rw [List.find?_cons_of_pos _ (by simp [hb])]
  · rw [if_neg hb]
    unfold lookupRS
    rw [List.find?_cons_of_neg _ (by simp [hb])]

lemma removeRunning_cons (a : Nat × List (Nat × Nat))
    (rest : List (Nat × List (Nat × Nat))) (sid pid : Nat) :
    removeRunning (a :: rest) sid pid
      = (if a.1 = sid then (a.1, a.2.filter (fun q => !(q.1 == pid))) else a)
          :: removeRunning rest sid pid := by
  by_cases hb : a.1 = sid <;> simp [removeRunning, hb]

lemma lookupRS_remove_self (sid pid : Nat) :
    ∀ rs : List (Nat × List (Nat × Nat)),
      lookupRS (removeRunning rs sid pid) sid
        = (lookupRS rs sid).filter (fun q => !(q.1 == pid)) := by
  intro rs
  induction rs with
  | nil => rfl
  | cons a rest ih =>
    by_cases hb : a.1 = sid <;>
      simp [removeRunning_cons, lookupRS_cons, hb, ih]

lemma lookupRS_remove_other (sid sid2 pid : Nat) (hne : sid2 ≠ sid) :
    ∀ rs : List (Nat × List (Nat × Nat)),
      lookupRS (removeRunning rs sid pid) sid2 = lookupRS rs sid2 := by
  intro rs
  induction rs with
  | nil => rfl
  | cons a rest ih =>
    by_cases hb : a.1 = sid
    · simp [removeRunning_cons, lookupRS_cons, hb, hne, Ne.symm hne, ih]
    · by_cases hc : a.1 = sid2 <;>
        simp [removeRunning_cons, lookupRS_cons, hb, hc, hne, Ne.symm hne, ih]

lemma lookupRS_insert_self (sid pid wid : Nat) :
    ∀ rs : List (Nat × List (Nat × Nat)),
      lookupRS (insertRunning rs sid pid wid) sid = lookupRS rs sid ++ [(pid, wid)] := by
  intro rs
  induction rs with
  | nil => simp [insertRunning, lookupRS_cons, lookupRS_nil]
  | cons a rest ih =>
    obtain ⟨s, d⟩ := a
    by_cases hb : s = sid <;>
      simp [insertRunning, lookupRS_cons, hb, ih]

lemma lookupRS_insert_other (sid sid2 pid wid : Nat) (hne : sid2 ≠ sid) :
    ∀ rs : List (Nat × List (Nat × Nat)),
      lookupRS (insertRunning rs sid pid wid) sid2 = lookupRS rs sid2 := by
  intro rs
  induction rs with
  | nil => simp [insertRunning, lookupRS_cons, lookupRS_nil, Ne.symm hne]
  | cons a rest ih =>
    obtain ⟨s, d⟩ := a
    by_cases hb : s = sid
    · simp [insertRunning, lookupRS_cons, hb, hne, Ne.symm hne, ih]
    · by_cases hc : s = sid2 <;>
        simp [insertRunning, lookupRS_cons, hb, hc, hne, Ne.symm hne, ih]

lemma restart_dead_worker_table (st : SMState) (dead s0 w0 : Nat)
    (h : find_dead st.running_services dead = some (s0, w0)) :
    (restart_dead_worker st dead).running_services
      = insertRunning (removeRunning st.running_services s0 dead) s0 st.nextPid w0 := by
  unfold restart_dead_worker
  rw [h]
  have hfr := slowdown_frame { st with
    running_services := removeRunning st.running_services s0 dead }
  simp [start_worker, hfr.1, hfr.2.1]

/-! ### Claim theorems -/

/-- Claim C1 (code bug): the claim says one `_adjust_workers` tick
sends terminate to every running worker whose `worker_id >=
worker_count`; in the source the downscale branch iterates
`range(running_workers, conf.workers)` with `running_workers >
conf.workers`, an empty range, so whenever no service is
under-provisioned the tick sends no SIGTERM at all and leaves the
state untouched — excess workers are never stopped. -/
theorem C1_downscale_sends_no_terminate (st : SMState)
    (h : ∀ p ∈ st.services, p.2 ≤ (lookupRunning st p.1).length) :
    adjust_workers st = (st, []) := by
  unfold adjust_workers
  exact foldl_adjust_step_noop st st.services h

/-- Witness for C1: a service with one desired worker and two running
workers (pids 100 and 101, worker ids 0 and 1). The tick signals
nobody, although pid 101 holds worker id 1 ≥ worker_count = 1 and the
claim says it must receive terminate. -/
theorem C1_downscale_sends_no_terminate_witness :
    adjust_workers downscaleState = (downscaleState, []) ∧
    ((lookupRunning downscaleState 0).filter (fun p => decide (1 ≤ p.2))).map Prod.fst
      = [101] :=
  ⟨C1_downscale_sends_no_terminate downscaleState (by decide), by decide⟩

/-- Claim C2 (code bug): the claim says the fork governor bounds the
fork rate to one per second over a window of `expected_children`
seconds; in the source nothing ever appends to `_forktimes` outside
the throttle branch (which itself requires `len(_forktimes) >
expected_children`), so the ledger stays empty and an arbitrarily long
sequence of `_start_worker` calls performs every fork without a single
sleep and without time advancing. -/
theorem C2_fork_governor_never_throttles (st : SMState) (jobs : List (Nat × Nat))
    (h : st.forktimes = []) :
    (start_workers st jobs).forktimes = [] ∧
    (start_workers st jobs).now = st.now ∧
    (start_workers st jobs).sleeps = st.sleeps ∧
    (start_workers st jobs).nextPid = st.nextPid + jobs.length := by
  induction jobs generalizing st with
  | nil => simp [start_workers, h]
  | cons j js ih =>
    have hw := start_worker_empty_forktimes st j.1 j.2 h
    have ihs := ih (start_worker st j.1 j.2) hw.1
    have hunfold : start_workers st (j :: js) = start_workers (start_worker st j.1 j.2) js :=
      rfl
    rw [hunfold]
    refine ⟨ihs.1, ?_, ?_, ?_⟩
    · rw [ihs.2.1, hw.2.1]
    · rw [ihs.2.2.1, hw.2.2.1]
    · rw [ihs.2.2.2, hw.2.2.2, List.length_cons]
      omega

/-- Three successive respawns of worker 0 of service 0. -/
def sustainedJobs : List (Nat × Nat) := [(0, 0), (0, 0), (0, 0)]

/-- Witness for C2: from a fresh manager with `expected_children = 1`,
three forks happen with no sleep and no time passing — more than
`expected_children` forks inside one `expected_children`-second
window. -/
theorem C2_fork_governor_never_throttles_witness :
    (start_workers freshState sustainedJobs).forktimes = [] ∧
    (start_workers freshState sustainedJobs).now = freshState.now ∧
    (start_workers freshState sustainedJobs).sleeps = freshState.sleeps ∧
    (start_workers freshState sustainedJobs).nextPid
      = freshState.nextPid + sustainedJobs.length :=
  C2_fork_governor_never_throttles freshState sustainedJobs rfl

/-- Claim C3 (code bug): the claim says `_empty_signal_pipe` reads the
self-pipe until it holds no unread bytes; in the source the loop
condition compares the `bytes` object returned by `os.read` with the
`int` 4096, which in Python 3 is always false, so exactly one read
happens: a pipe holding 4097 bytes still holds 1 byte after the drain.
A would-block read on an empty pipe is indeed swallowed. -/
theorem C3_empty_signal_pipe_single_read :
    empty_signal_pipe 4097 = 1 ∧ empty_signal_pipe 4096 = 0 ∧ empty_signal_pipe 0 = 0 :=
  ⟨rfl, rfl, rfl⟩

/-- Claim C4 (code bug): the claim says `reconfigure` on an unknown
service id fails with the deliberate "unknown service" `ValueError`;
the source guards the dict lookup with `except IndexError`, but a
Python dict raises `KeyError`, so the deliberate error is unreachable
and the uncaught `KeyError` propagates (the registry and ledger are
left unchanged, as nothing ran). For a registered id the desired
worker count is updated and the fork-time ledger is reset. -/
theorem C4_reconfigure_unknown_service_keyerror :
    reconfigure reconfState 5 3 = .error (.keyError 5) ∧
    PyErr.keyError 5 ≠ PyErr.valueError 5 ∧
    reconfigure reconfState 1 3 = .ok ⟨[(1, 3)], [], [], 0, 100, 0⟩ :=
  ⟨rfl, by decide, rfl⟩

/-- Claim C5 (confirmed): for every sequence of received signals,
`_signal_catcher` prepends terminate-class signals (SIGTERM, SIGALRM)
and appends reload-class signals (SIGHUP), and `_run_signal_handlers`
pops from the front, so the dispatch order always has every pending
terminate-class signal before every reload-class signal, in particular
before reloads queued earlier. -/
theorem C5_terminate_dispatched_before_reload (sigs : List Sig) :
    TermFirst (run_signal_handlers (receiveAll sigs)) := by
  rw [run_signal_handlers_eq]
  exact foldl_signal_catcher_preserves sigs [] ⟨[], [], rfl, by simp, by simp⟩

/-- Claim C6 (confirmed): a worker exits 0 on graceful termination
(user `terminate()` returns, then `sys.exit(0)`), with the carried
code when user code raises `SystemExit(code)`, 1 when the SIGALRM
deadline fires, and 2 when any other unhandled failure escapes, via
the `_exit_on_exception` barrier. -/
theorem C6_worker_exit_codes (c : Int) (t : Nat) :
    service_terminate_exit .normal = some 0 ∧
    service_terminate_exit (.sysExit c) = some c ∧
    service_terminate_exit .raiseOther = some 2 ∧
    (child_on_signal_received t .sigalrm).exitStatus = some 1 ∧
    exit_on_exception (.sysExit c) = some c ∧
    exit_on_exception .raiseOther = some 2 ∧
    exit_on_exception .normal = none :=
  ⟨rfl, rfl, rfl, rfl, rfl, rfl, rfl⟩

/-- Counterexample to C7 as stated: with `NOTIFY_SOCKET` set to the
empty string — a set variable — `_systemd_notify_once` sends nothing,
because `if notify_socket:` is a truthiness test. -/
theorem C7_counterexample_empty_value :
    (systemd_notify_once (some "") .success).datagram = none ∧
    (some "" : Option String) ≠ none := by
  constructor
  · rfl
  · simp

/-- Claim C7 (corrected): if `NOTIFY_SOCKET` is unset or set to the
empty string the notifier does nothing; if set to a non-empty value it
sends the single datagram `READY=1` to the translated address and
unsets the variable exactly when the send succeeds (so a later call
sends nothing); an I/O error is swallowed and leaves the variable
set. -/
theorem C7_readiness_notifier (s : String) (res : SendResult) (h : s ≠ "") :
    systemd_notify_once none res = ⟨none, none⟩ ∧
    systemd_notify_once (some "") res = ⟨none, some ""⟩ ∧
    systemd_notify_once (some s) .success
      = ⟨some (translate_notify_socket s, "READY=1"), none⟩ ∧
    systemd_notify_once (some s) .envError = ⟨none, some s⟩ ∧
    systemd_notify_once (systemd_notify_once (some s) .success).envAfter res
      = ⟨none, none⟩ := by
  refine ⟨rfl, ?_, ?_, ?_, ?_⟩ <;> simp [systemd_notify_once, h]

/-- Witness for C7 at the abstract-namespace address `@abc`. -/
theorem C7_readiness_notifier_witness :
    systemd_notify_once (some "@abc") .success
      = ⟨some (translate_notify_socket "@abc", "READY=1"), none⟩ ∧
    systemd_notify_once (some "@abc") .envError = ⟨none, some "@abc"⟩ :=
  ⟨(C7_readiness_notifier "@abc" .success (by decide)).2.2.1,
   (C7_readiness_notifier "@abc" .envError (by decide)).2.2.2.1⟩

/-- Claim C8 (confirmed): once `_process_runner_already_created` is
set by a successful `ServiceManager.__init__`, every further
construction raises `RuntimeError` and performs no initialization
(the process state is untouched); the first construction from a fresh
process succeeds and sets the guard. -/
theorem C8_second_construction_fails (st : ProcState) (h : st.created = true) :
    (service_manager_init st).2 = some .runtimeError ∧
    (service_manager_init st).1 = st ∧
    ∀ n : Nat, service_manager_init ⟨false, n⟩ = (⟨true, n + 1⟩, none) := by
  refine ⟨?_, ?_, ?_⟩ <;> simp [service_manager_init, h]

/-- Witness for C8: after the first successful construction the
process state is `⟨true, 1⟩`; a second attempt raises and changes
nothing. -/
theorem C8_second_construction_fails_witness :
    (service_manager_init ⟨true, 1⟩).2 = some .runtimeError ∧
    (service_manager_init ⟨true, 1⟩).1 = ⟨true, 1⟩ :=
  ⟨(C8_second_construction_fails ⟨true, 1⟩ rfl).1,
   (C8_second_construction_fails ⟨true, 1⟩ rfl).2.1⟩

/-- Claim C9 (confirmed): `_stop_worker` only signals and leaves the
running-worker table unchanged; `_restart_dead_worker`, after the dead
pid has been waited on, removes exactly that pid from its service's
dict, re-adds the freshly forked pid under the same worker id, keeps
every other pid of that service, and leaves every other service's dict
unchanged. -/
theorem C9_running_table_mutations (st : SMState) (sid wid dead s0 w0 : Nat)
    (h : find_dead st.running_services dead = some (s0, w0))
    (hpid : st.nextPid ≠ dead) :
    (stop_worker st sid wid).1 = st ∧
    dead ∉ (lookupRunning (restart_dead_worker st dead) s0).map Prod.fst ∧
    (st.nextPid, w0) ∈ lookupRunning (restart_dead_worker st dead) s0 ∧
    (∀ p ∈ lookupRunning st s0, p.1 ≠ dead →
      p ∈ lookupRunning (restart_dead_worker st dead) s0) ∧
    (∀ sid2, sid2 ≠ s0 →
      lookupRunning (restart_dead_worker st dead) sid2 = lookupRunning st sid2) := by
  have htab := restart_dead_worker_table st dead s0 w0 h
  have hself : lookupRunning (restart_dead_worker st dead) s0
      = (lookupRS st.running_services s0).filter (fun q => !(q.1 == dead))
          ++ [(st.nextPid, w0)] := by
    rw [lookupRunning, htab, lookupRS_insert_self, lookupRS_remove_self]
  refine ⟨rfl, ?_, ?_, ?_, ?_⟩
  · rw [hself]
    intro hmem
    rcases List.mem_map.mp hmem with ⟨q, hq, hq1⟩
    rcases List.mem_append.mp hq with hq | hq
    · have hf := List.mem_filter.mp hq
      simp [hq1] at hf
    · have hq' : q = (st.nextPid, w0) := by simpa using hq
      rw [hq'] at hq1
      exact hpid hq1
  · rw [hself]
    exact List.mem_append.mpr (Or.inr (by simp))
  · intro p hp hpd
    rw [hself]
    refine List.mem_append.mpr (Or.inl ?_)
    exact List.mem_filter.mpr ⟨hp, by simp [hpd]⟩
  · intro sid2 hs2
    rw [lookupRunning, htab, lookupRS_insert_other _ _ _ _ hs2,
        lookupRS_remove_other _ _ _ hs2]
    rfl

/-- Witness for C9: reaping pid 100 (service 0, worker 0) of
`reapState` removes it, respawns pid 200 as worker 0, keeps pid 101
and leaves service 1 untouched; `_stop_worker` changes nothing. -/
theorem C9_running_table_mutations_witness :
    (stop_worker reapState 0 1).1 = reapState ∧
    (100 : Nat) ∉ (lookupRunning (restart_dead_worker reapState 100) 0).map Prod.fst ∧
    ((200 : Nat), (0 : Nat)) ∈ lookupRunning (restart_dead_worker reapState 100) 0 ∧
    (∀ p ∈ lookupRunning reapState 0, p.1 ≠ 100 →
      p ∈ lookupRunning (restart_dead_worker reapState 100) 0) ∧
    (∀ sid2, sid2 ≠ 0 →
      lookupRunning (restart_dead_worker reapState 100) sid2
        = lookupRunning reapState sid2) :=
  C9_running_table_mutations reapState 0 1 100 0 0 rfl (by decide)

/-- Claim C10 (confirmed): `Service.graceful_shutdown_timeout`
defaults to 60 seconds, which is positive, so on SIGTERM a worker of a
subclass that does not override it arms a 60-second alarm and spawns
the graceful terminate task; a zero timeout would arm no alarm. -/
theorem C10_graceful_timeout_default_60 :
    graceful_shutdown_timeout_default = 60 ∧
    (child_on_signal_received graceful_shutdown_timeout_default .sigterm).alarmArmed
      = some 60 ∧
    (child_on_signal_received graceful_shutdown_timeout_default .sigterm).spawnTerminate
      = true ∧
    (child_on_signal_received 0 .sigterm).alarmArmed = none := by
  decide

end Cotyledon
